import Mathlib

/-!
Shallow embedding of the quotation-management system's core computation
(quotations/views.py, orm_utils.py, scrap/ui.py, scrap/pdf_utils.py, app.py,
whatsapp.py) and proofs about it.

Conventions:
* Python `Decimal` values are embedded as `ℚ` (every Decimal is an exact
  rational); `DecimalField(decimal_places=2)` values are rationals of the
  form `k / 100`.
* Python binary64 floats are embedded as the exact rationals they denote;
  a decimal literal entering through `float(...)` must therefore be
  translated to the rational value of its nearest binary64 number.
* Database tables are embedded as lists of records; the ORM helpers
  (`get_or_create`, the `SellerQuote` upsert) are explicit functions on
  those lists.
-/

namespace QMS

/-! ## String helpers

Python's `str.strip()` and single-character `str.replace` are embedded as
structural functions on the character list of a `String`. -/

/-- Python `str.strip()`: drop leading and trailing whitespace. -/
def strip (s : String) : String :=
  ⟨((s.data.dropWhile Char.isWhitespace).reverse.dropWhile Char.isWhitespace).reverse⟩

/-! ## Money rounding

`quotations/views.py` line 40: `_money(value) = value.quantize(Decimal("0.01"),
rounding=ROUND_HALF_UP)`.  `ROUND_HALF_UP` rounds an exact half cent away from
zero.  `orm_utils.py` line 61 instead uses Python's builtin `round(x, 2)` on
floats, which rounds to the nearest hundredth, halves to even. -/

/-- Cents of `x` under `decimal.ROUND_HALF_UP` (ties away from zero). -/
def roundHalfUpCents (x : ℚ) : ℤ :=
  if 0 ≤ x then ⌊x * 100 + 1/2⌋ else -⌊(-x) * 100 + 1/2⌋

/-- `_money` from quotations/views.py: quantize to two fractional digits,
rounding half up. -/
def money (x : ℚ) : ℚ := (roundHalfUpCents x : ℚ) / 100

/-- Cents of `x` under round-half-to-even, the rule of Python's builtin
`round(x, 2)` (on floats a tie never occurs, since no binary64 value has a
fractional part of exactly half a cent, so this is plain nearest rounding). -/
def roundHalfEvenCents (x : ℚ) : ℤ :=
  if x * 100 - ⌊x * 100⌋ < 1/2 then ⌊x * 100⌋
  else if 1/2 < x * 100 - ⌊x * 100⌋ then ⌊x * 100⌋ + 1
  else if ⌊x * 100⌋ % 2 = 0 then ⌊x * 100⌋ else ⌊x * 100⌋ + 1

/-- Python `round(x, 2)` under the exact-value reading of floats. -/
def pyRound2 (x : ℚ) : ℚ := (roundHalfEvenCents x : ℚ) / 100

/-- `x` is a whole number of cents (the value set of a
`DecimalField(decimal_places=2)` column). -/
def isCents (x : ℚ) : Prop := ∃ k : ℤ, x = (k : ℚ) / 100

/-! ## Web quotation creation (quotations/views.py)

`quotation_multi_create` (lines 165-227) cleans each non-deleted item form,
drops rows with empty name, empty description and non-positive quantity,
computes each surviving row's amount with `_money`, refuses the block when no
row survives, then stores the quotation with recomputed totals.
`_handle_quotation_form` (lines 390-498) saves the formset's items, sets each
amount with `_money`, and recomputes the totals from the persisted item set —
with no check that the set is non-empty. -/

/-- One cleaned item form (`QuotationItemForm.cleaned_data`): `qty`/`rate` are
optional on the form (`required = False`), `None` becomes `0` in the views. -/
structure FormRow where
  item_name : String
  description : String
  qty : Option ℚ
  rate : Option ℚ
deriving DecidableEq

/-- A persisted `QuotationItem` row of the web model
(quotation_models/models.py lines 64-73). -/
structure LineItem where
  item_name : String
  description : String
  qty : ℚ
  rate : ℚ
  amount : ℚ
deriving DecidableEq

/-- Acceptance condition of `QuotationItemForm.clean` (quotations/forms.py
lines 74-98) for a form that is not marked for deletion: either untouched /
entirely empty, or it names an item or description, has positive quantity and
non-negative rate. -/
def cleanAccepts (r : FormRow) : Prop :=
  (strip r.item_name = "" ∧ strip r.description = "" ∧ r.qty = none ∧ r.rate = none) ∨
    ((strip r.item_name ≠ "" ∨ strip r.description ≠ "") ∧
      0 < r.qty.getD 0 ∧ 0 ≤ r.rate.getD 0)

/-- quotations/views.py lines 176-183: strip name and description, default
missing qty/rate to 0, skip the row when name and description are empty and
qty is non-positive, otherwise compute `amount = _money(qty * rate)`. -/
def rowToPayload (r : FormRow) : Option LineItem :=
  if strip r.item_name = "" ∧ strip r.description = "" ∧ r.qty.getD 0 ≤ 0 then none
  else some ⟨strip r.item_name, strip r.description, r.qty.getD 0, r.rate.getD 0,
    money (r.qty.getD 0 * r.rate.getD 0)⟩

/-- The `items_payload` list built in `quotation_multi_create`. -/
def itemsPayload (rows : List FormRow) : List LineItem :=
  rows.filterMap rowToPayload

/-- `TAX_RATE = Decimal("0.18")` (quotations/views.py line 32). -/
def TAX_RATE : ℚ := 18/100

/-- A stored `Quotation` with its persisted items and derived monetary
fields (code, buyer, notes, timestamps are not touched by the claims and are
omitted). -/
structure QuotationRec where
  items : List LineItem
  subtotal : ℚ
  tax : ℚ
  total : ℚ
deriving DecidableEq

/-- One block of `quotation_multi_create` (quotations/views.py lines
168-223): build the payload, fail with a form error when it is empty,
otherwise persist the items and store
`subtotal = _money(Σ amount)`, `tax = _money(Σ amount * TAX_RATE)`,
`total = _money(subtotal + tax)`.  The `include_gst` field of
`QuotationBlockForm` is part of the submitted data but is never read by the
view, hence the unused `includeGst` argument. -/
def quotation_multi_create (includeGst : Bool) (rows : List FormRow) :
    Option QuotationRec :=
  if itemsPayload rows = [] then none
  else some
    ⟨itemsPayload rows,
      money ((itemsPayload rows).map LineItem.amount).sum,
      money (((itemsPayload rows).map LineItem.amount).sum * TAX_RATE),
      money (money ((itemsPayload rows).map LineItem.amount).sum +
        money (((itemsPayload rows).map LineItem.amount).sum * TAX_RATE))⟩

/-- An item saved by `_handle_quotation_form` (quotations/views.py lines
454-455): `amount = _money(Decimal(qty or 0) * Decimal(rate or 0))`, names
kept as entered. -/
def savedItem (r : FormRow) : LineItem :=
  ⟨r.item_name, r.description, r.qty.getD 0, r.rate.getD 0,
    money (r.qty.getD 0 * r.rate.getD 0)⟩

/-- The uncaught exception of the form-save path: with zero persisted items,
`sum` over the empty item set returns the plain int `0`, and `_money(0)`
raises `AttributeError` (`int` has no `quantize`). -/
inductive FormSaveError where
  | attributeError : FormSaveError
deriving DecidableEq

/-- The POST branch of `_handle_quotation_form` (quotations/views.py lines
437-475), applied to the final formset rows (for a create: the changed,
non-empty forms; for an edit: the replaced item set).  The view has no
emptiness check; instead, when zero items are persisted, the recomputation at
lines 470-472 applies `_money` to the int `0` that `sum` returns on the empty
sequence, raising `AttributeError` inside `transaction.atomic`, which rolls
everything back — nothing is persisted and no success is reported.  With at
least one persisted item the totals are recomputed from the persisted item
set. -/
def handle_quotation_form (finalRows : List FormRow) :
    Except FormSaveError QuotationRec :=
  if (finalRows.map savedItem) = [] then .error .attributeError
  else .ok
    ⟨finalRows.map savedItem,
      money ((finalRows.map savedItem).map LineItem.amount).sum,
      money (((finalRows.map savedItem).map LineItem.amount).sum * TAX_RATE),
      money (money ((finalRows.map savedItem).map LineItem.amount).sum +
        money (((finalRows.map savedItem).map LineItem.amount).sum * TAX_RATE))⟩

/-! ## Desktop quotation creation (orm_utils.py, scrap/ui.py)

`orm_utils.create_quotation_and_items` (lines 40-70) resolves or creates the
buyer with `get_or_create`, then persists one `QuotationItem` per input row
with `amount = round(qty * rate, 2)` and stores the accumulated totals.
All numbers on this path are binary64 floats; they are embedded as the exact
rationals they denote (so a decimal literal such as `2.675` enters as the
value of its nearest binary64 number). -/

/-- One row of the desktop item sheet after parsing
(`{"item", "description", "qty", "rate"}`). -/
structure OrmRow where
  item : String
  description : String
  qty : ℚ
  rate : ℚ
deriving DecidableEq

/-- A persisted `QuotationItem` of the desktop model (orm_utils.py lines
63-65): single `description` column, no separate item-name column. -/
structure OrmItem where
  description : String
  qty : ℚ
  rate : ℚ
  amount : ℚ
deriving DecidableEq

/-- A `Buyer` row (quotation_models/models.py lines 22-33). -/
structure BuyerRec where
  name : String
  phone : String
  email : String
  address : String
deriving DecidableEq

/-- The stored quotation of the desktop path, with the buyer it resolved. -/
structure OrmQuotation where
  buyer : BuyerRec
  items : List OrmItem
  subtotal : ℚ
  tax : ℚ
  total : ℚ
deriving DecidableEq

/-- orm_utils.py line 46: `(buyer_name or "Walk-in Buyer").strip()` — the
Python `or` takes the right operand exactly when the string is empty. -/
def buyerKey (buyer_name : String) : String :=
  strip (if buyer_name = "" then "Walk-in Buyer" else buyer_name)

/-- `Buyer.objects.get_or_create(name=key, defaults={...})` (orm_utils.py
lines 45-48): return the first stored buyer with that exact name, leaving the
table unchanged; otherwise insert a new buyer built from the defaults. -/
def buyerGetOrCreate (buyers : List BuyerRec) (key phone email address : String) :
    BuyerRec × List BuyerRec :=
  match buyers.find? (fun b => b.name == key) with
  | some b => (b, buyers)
  | none => (⟨key, phone, email, address⟩, buyers ++ [⟨key, phone, email, address⟩])

/-- orm_utils.py line 58: `f"{item}: {desc}" if item and desc else item or desc`. -/
def fullDescription (item desc : String) : String :=
  if item ≠ "" ∧ desc ≠ "" then item ++ ": " ++ desc
  else if item ≠ "" then item else desc

/-- The binary64 value of the literal `0.18` (orm_utils.py line 66 multiplies
the float subtotal by the float `0.18`). -/
def float018 : ℚ := 3242591731706757 / 2^54

/-- One iteration of the item loop of `create_quotation_and_items`
(orm_utils.py lines 55-65): strip item and description, combine them, compute
`amount = round(qty * rate, 2)`.  The float product is embedded as the exact
rational product (exact whenever one factor is 1 or the product is
representable). -/
def ormMkItem (r : OrmRow) : OrmItem :=
  ⟨fullDescription (strip r.item) (strip r.description), r.qty, r.rate,
    pyRound2 (r.qty * r.rate)⟩

/-- `create_quotation_and_items` (orm_utils.py lines 40-70): resolve or
create the buyer, persist every given row, accumulate
`subtotal = Σ amount`, `tax = round(subtotal * 0.18, 2)`,
`total = round(subtotal + tax, 2)`.  Quotation code, notes and dates are
omitted; the function has no check that `rows` is non-empty. -/
def create_quotation_and_items (buyers : List BuyerRec)
    (buyer_name buyer_phone buyer_email buyer_address : String)
    (rows : List OrmRow) : OrmQuotation × List BuyerRec :=
  ((fun buyers2 =>
    ⟨buyers2.1,
      rows.map ormMkItem,
      ((rows.map ormMkItem).map OrmItem.amount).sum,
      pyRound2 (((rows.map ormMkItem).map OrmItem.amount).sum * float018),
      pyRound2 (((rows.map ormMkItem).map OrmItem.amount).sum +
        pyRound2 (((rows.map ormMkItem).map OrmItem.amount).sum * float018))⟩)
    (buyerGetOrCreate buyers (buyerKey buyer_name) buyer_phone buyer_email buyer_address),
   (buyerGetOrCreate buyers (buyerKey buyer_name) buyer_phone buyer_email buyer_address).2)

/-! ### Item sheet validation (scrap/ui.py `_get_items_from_sheet`) -/

/-- `row[i]` of a sheet row, `""` when the row is too short
(scrap/ui.py lines 165-168 guard on `len(...)`). -/
def cellStr (row : List String) (i : ℕ) : String := row.getD i ""

/-- scrap/ui.py lines 164-180, one item pair: strip the four relevant cells,
skip the pair when all four are empty, parse qty and rate with `float` (an
empty cell parses as 0, an unparsable cell skips the pair), skip when
`qty <= 0 or rate < 0`.  `parseFloat` abstracts Python's `float(...)`
(`none` = `ValueError`). -/
def sheetRowToItem (parseFloat : String → Option ℚ) (top bot : List String) :
    Option OrmRow :=
  if strip (cellStr top 0) = "" ∧ strip (cellStr bot 0) = "" ∧
      strip (cellStr top 1) = "" ∧ strip (cellStr top 2) = "" then none
  else
    match (if strip (cellStr top 1) = "" then some 0 else parseFloat (strip (cellStr top 1))),
        (if strip (cellStr top 2) = "" then some 0 else parseFloat (strip (cellStr top 2))) with
    | some qty, some rate =>
      if qty ≤ 0 ∨ rate < 0 then none
      else some ⟨strip (cellStr top 0), strip (cellStr bot 0), qty, rate⟩
    | _, _ => none

/-- The pairwise loop of `_get_items_from_sheet` over an even-length sheet. -/
def sheetRows (parseFloat : String → Option ℚ) : List (List String) → List OrmRow
  | top :: bot :: rest =>
    match sheetRowToItem parseFloat top bot with
    | some r => r :: sheetRows parseFloat rest
    | none => sheetRows parseFloat rest
  | _ => []

/-- `_get_items_from_sheet` (scrap/ui.py lines 158-181): drop a trailing odd
row, then walk the sheet two rows at a time. -/
def get_items_from_sheet (parseFloat : String → Option ℚ)
    (data : List (List String)) : List OrmRow :=
  sheetRows parseFloat (if data.length % 2 = 0 then data else data.dropLast)

/-- The guard of `_on_generate` (scrap/ui.py lines 198-201): with no valid
items a validation error dialog ("Items required") is shown and
`create_quotation_and_items` is never invoked; otherwise creation runs. -/
def on_generate (buyers : List BuyerRec) (nm ph em ad : String)
    (items : List OrmRow) : Option (OrmQuotation × List BuyerRec) :=
  if items = [] then none
  else some (create_quotation_and_items buyers nm ph em ad items)

/-- A parser for plain non-negative integer cell texts, a fragment of
Python's `float(...)`, enough to drive concrete runs. -/
def simpleParse (s : String) : Option ℚ :=
  if s.data ≠ [] ∧ s.data.all Char.isDigit then
    some ((s.data.foldl (fun n c => 10 * n + (c.toNat - 48)) 0 : ℕ) : ℚ)
  else none

/-! ## Multi-seller fan-out (app.py `generate_pdfs_for_sellers`, lines 422-444)

The function resolves the template style (`TemplateStyle.objects.get`), then
for each seller id in order resolves the company (`Company.objects.get`,
raising when absent), writes the PDF artifact, and upserts the `SellerQuote`
row for `(quotation, seller)` (`get_or_create` under the model's
`unique_together = ("quotation", "seller")`, then overwriting template and
pdf_path).  There is no enclosing transaction: an exception leaves every
already-performed write in place. -/

/-- A `SellerQuote` row (quotation_models/models.py lines 98-106). -/
structure SellerQuoteRec where
  quotation : ℕ
  seller : ℕ
  template : String
  pdf_path : String
deriving DecidableEq

/-- The mutable state the fan-out touches: the `SellerQuote` table and the
set of artifact files written so far. -/
structure FanState where
  sellerQuotes : List SellerQuoteRec
  artifacts : List String
deriving DecidableEq

/-- The exceptions `generate_pdfs_for_sellers` can raise. -/
inductive FanError where
  | templateNotFound : FanError
  | companyNotFound : ℕ → FanError
deriving DecidableEq

/-- Python `.replace(" ", "")`: remove every space. -/
def removeSpaces (s : String) : String := ⟨s.data.filter (fun c => c ≠ ' ')⟩

/-- app.py line 432: `out_dir / f"{q.code}-{seller.name.replace(' ', '')}.pdf"`
with `out_dir = BASE_DIR / "output" / dt.date.today().isoformat()`. -/
def pdfPathFor (dateIso qcode sellerName : String) : String :=
  "output/" ++ dateIso ++ "/" ++ qcode ++ "-" ++ removeSpaces sellerName ++ ".pdf"

/-- app.py lines 439-441: `get_or_create(quotation=q, seller=seller,
defaults={"template": tmpl})` followed by overwriting `template` and
`pdf_path` and saving — i.e. replace the row for the pair when it exists,
insert it otherwise. -/
def upsertSellerQuote : List SellerQuoteRec → ℕ → ℕ → String → String →
    List SellerQuoteRec
  | [], qid, sid, tmpl, path => [⟨qid, sid, tmpl, path⟩]
  | r :: rest, qid, sid, tmpl, path =>
    if r.quotation == qid && r.seller == sid then ⟨qid, sid, tmpl, path⟩ :: rest
    else r :: upsertSellerQuote rest qid sid tmpl path

/-- One loop iteration's state change: PDF written, `SellerQuote` upserted. -/
def fanStep (st : FanState) (qid sid : ℕ) (tmpl path : String) : FanState :=
  ⟨upsertSellerQuote st.sellerQuotes qid sid tmpl path, st.artifacts ++ [path]⟩

/-- The seller loop of `generate_pdfs_for_sellers` (app.py lines 430-442).
A company table entry is an `(id, name)` pair.  An unresolvable id raises
`Company.DoesNotExist`; the writes already performed stay in the state. -/
def generatePdfsLoop (companies : List (ℕ × String)) (dateIso : String)
    (qid : ℕ) (qcode tmplCode : String) :
    List ℕ → FanState → Except FanError (List String) × FanState
  | [], st => (.ok [], st)
  | sid :: rest, st =>
    match companies.find? (fun c => c.1 == sid) with
    | none => (.error (.companyNotFound sid), st)
    | some c =>
      match generatePdfsLoop companies dateIso qid qcode tmplCode rest
          (fanStep st qid sid tmplCode (pdfPathFor dateIso qcode c.2)) with
      | (.ok paths, st2) => (.ok (pdfPathFor dateIso qcode c.2 :: paths), st2)
      | (.error e, st2) => (.error e, st2)

/-- `generate_pdfs_for_sellers` (app.py lines 422-444): resolve the template
style against the reference data (line 427 raises before any seller is
processed), then run the seller loop. -/
def generate_pdfs_for_sellers (styles : List String)
    (companies : List (ℕ × String)) (dateIso : String) (qid : ℕ)
    (qcode tmplCode : String) (ids : List ℕ) (st : FanState) :
    Except FanError (List String) × FanState :=
  if styles.contains tmplCode then
    generatePdfsLoop companies dateIso qid qcode tmplCode ids st
  else (.error .templateNotFound, st)

/-- The rows of the `SellerQuote` table for one `(quotation, seller)` pair. -/
def pairCount (l : List SellerQuoteRec) (qid sid : ℕ) : ℕ :=
  (l.filter (fun r => r.quotation == qid && r.seller == sid)).length

/-- The first `SellerQuote` row for one `(quotation, seller)` pair. -/
def findPair (l : List SellerQuoteRec) (qid sid : ℕ) : Option SellerQuoteRec :=
  l.find? (fun r => r.quotation == qid && r.seller == sid)

/-! ## Document renderer (scrap/pdf_utils.py `render_pdf`, lines 95-153)

`render_pdf` branches once on `style_code == "main"`: the main branch builds
the letter-style story, every other value of `style_code` — the four other
seeded codes as well as any unknown string — builds the one shared
banner-plus-table story.  Both branches render the same
`_two_row_items_table`, whose only use of the style code is the header
background colour.  No branch raises an unsupported-style error. -/

/-- What the renderer is given (a projection of `RenderContext`): the raw
item dicts and the already-computed totals. -/
structure RenderCtx where
  items : List OrmRow
  subtotal : ℚ
  tax : ℚ
  total : ℚ
deriving DecidableEq

/-- Decimal digits of `n`, most significant first. -/
def natDigits (n : ℕ) : List Char :=
  (Nat.toDigits 10 n)

/-- Thousands grouping of a digit string (the `,` of Python's `{:,.2f}`). -/
def groupThousands (s : List Char) : List Char :=
  (go s.reverse).reverse
where
  go : List Char → List Char
    | a :: b :: c :: d :: rest => a :: b :: c :: ',' :: go (d :: rest)
    | l => l

/-- Two-digit cent field. -/
def twoDigits (n : ℕ) : String :=
  if n < 10 then "0" ++ toString n else toString n

/-- Python `f"{v:.2f}"` under the exact-value reading of floats (nearest
hundredth, no tie at a representable input). -/
def formatFixed2 (x : ℚ) : String :=
  if roundHalfEvenCents x < 0 then
    "-" ++ toString ((-roundHalfEvenCents x).toNat / 100) ++ "." ++
      twoDigits ((-roundHalfEvenCents x).toNat % 100)
  else
    toString ((roundHalfEvenCents x).toNat / 100) ++ "." ++
      twoDigits ((roundHalfEvenCents x).toNat % 100)

/-- `_money` of scrap/pdf_utils.py line 30: `f"{float(v):,.2f}"`. -/
def formatMoneyStr (x : ℚ) : String :=
  if roundHalfEvenCents x < 0 then
    "-" ++ ⟨groupThousands (natDigits ((-roundHalfEvenCents x).toNat / 100))⟩ ++ "." ++
      twoDigits ((-roundHalfEvenCents x).toNat % 100)
  else
    ⟨groupThousands (natDigits ((roundHalfEvenCents x).toNat / 100))⟩ ++ "." ++
      twoDigits ((roundHalfEvenCents x).toNat % 100)

/-- `_two_row_items_table` (scrap/pdf_utils.py lines 51-93) as its cell
texts: a header row, an item row and a description row per line item (the
amount cell is recomputed as `qty * rate`), then subtotal, tax and total
rows. -/
def twoRowItemsTable (ctx : RenderCtx) : List (List String) :=
  ["Item", "Quantity", "Rate", "Amount"] ::
    ((ctx.items.map (fun it =>
      [[strip it.item, formatFixed2 it.qty, formatMoneyStr it.rate,
          formatMoneyStr (it.qty * it.rate)],
        [strip it.description, "", "", ""]])).flatten ++
      [["", "", "Subtotal", formatMoneyStr ctx.subtotal],
        ["", "", "Tax", formatMoneyStr ctx.tax],
        ["", "", "Total", formatMoneyStr ctx.total]])

/-- The information content of one rendered document. -/
structure RenderedDoc where
  letterHead : Bool
  metaBanner : Bool
  headerBg : String
  itemTable : List (List String)
deriving DecidableEq

/-- `render_pdf` (scrap/pdf_utils.py lines 95-153): the `"main"` branch
renders the letter layout, every other style code renders the shared generic
layout; the header background is `lightgrey` exactly for `"main"`
(line 81).  The function is total — there is no unsupported-style error. -/
def render_pdf (ctx : RenderCtx) (styleCode : String) : RenderedDoc :=
  if styleCode = "main" then ⟨true, false, "lightgrey", twoRowItemsTable ctx⟩
  else ⟨false, true, "whitesmoke", twoRowItemsTable ctx⟩

/-! ## Outbound link builder (whatsapp.py)

`format_e164` (lines 6-15) returns `None` for an empty string, parses with
the external `phonenumbers` library in region `"IN"`, and for a possible and
valid number returns the E.164 formatting with the `+` removed; any parse
exception or failed check yields `None`.  `open_whatsapp_chat` (lines 17-20)
builds `https://wa.me/<digits>?text=<quote(text)>` when digits were obtained
and `https://wa.me/?text=<quote(text)>` otherwise.  The `phonenumbers`
library is external to the repository and is abstracted as a `PhoneLib`. -/

/-- The interface of the `phonenumbers` collaborator: `parse` returns `none`
when `phonenumbers.parse` raises, `e164` is
`format_number(num, PhoneNumberFormat.E164)`. -/
structure PhoneLib (P : Type) where
  parse : String → Option P
  isPossible : P → Bool
  isValid : P → Bool
  e164 : P → String

/-- Python `.replace("+", "")`: remove every `+`. -/
def stripPlus (s : String) : String := ⟨s.data.filter (fun c => c ≠ '+')⟩

/-- UTF-8 encoding of one character, as byte values. -/
def utf8EncodeCharNat (c : Char) : List ℕ :=
  if c.toNat < 128 then [c.toNat]
  else if c.toNat < 2048 then [192 + c.toNat / 64, 128 + c.toNat % 64]
  else if c.toNat < 65536 then
    [224 + c.toNat / 4096, 128 + c.toNat / 64 % 64, 128 + c.toNat % 64]
  else
    [240 + c.toNat / 262144, 128 + c.toNat / 4096 % 64,
      128 + c.toNat / 64 % 64, 128 + c.toNat % 64]

/-- UTF-8 byte values of a string. -/
def utf8Bytes (s : String) : List ℕ := s.data.flatMap utf8EncodeCharNat

/-- The always-safe characters of `urllib.parse.quote` plus its default
`safe='/'`, as a predicate on UTF-8 byte values. -/
def quoteSafeByte (b : ℕ) : Bool :=
  (65 ≤ b && b ≤ 90) || (97 ≤ b && b ≤ 122) || (48 ≤ b && b ≤ 57) ||
    (b == 95) || (b == 46) || (b == 45) || (b == 126) || (b == 47)

/-- Uppercase hexadecimal digit. -/
def hexDigit (n : ℕ) : Char :=
  if n < 10 then Char.ofNat (48 + n) else Char.ofNat (55 + n)

/-- `urllib.parse.quote(text)`: percent-encode every UTF-8 byte outside the
safe set, uppercase hex. -/
def pctQuote (s : String) : String :=
  String.join ((utf8Bytes s).map (fun b =>
    if quoteSafeByte b then String.singleton (Char.ofNat b)
    else "%" ++ String.singleton (hexDigit (b / 16)) ++
      String.singleton (hexDigit (b % 16))))

/-- `format_e164` (whatsapp.py lines 6-15). -/
def format_e164 {P : Type} (lib : PhoneLib P) (phone_raw : String) :
    Option String :=
  if phone_raw = "" then none
  else
    match lib.parse phone_raw with
    | none => none
    | some n =>
      if lib.isPossible n && lib.isValid n then some (stripPlus (lib.e164 n))
      else none

/-- The URL built by `open_whatsapp_chat` (whatsapp.py lines 17-20); the
`webbrowser.open` side effect is outside the model. -/
def open_whatsapp_chat {P : Type} (lib : PhoneLib P) (phone text : String) :
    String :=
  match format_e164 lib phone with
  | some digits => "https://wa.me/" ++ digits ++ "?text=" ++ pctQuote text
  | none => "https://wa.me/?text=" ++ pctQuote text

/-! ## Concrete data for the evaluations below -/

/-- The binary64 value of the literal `2.675`
(3011782250804019 × 2⁻⁵⁰ = 2.67499999999999982236…, strictly below the tie). -/
def float2_675 : ℚ := 3011782250804019 / 2^50

/-- A concrete instantiation of the `phonenumbers` collaborator: recognizes
the single raw string `"9876543210"` as a possible, valid number with E.164
form `+919876543210` (its actual formatting in region `IN`). -/
def demoLib : PhoneLib Unit :=
  ⟨fun s => if s = "9876543210" then some () else none,
    fun _ => true, fun _ => true, fun _ => "+919876543210"⟩

/-!
# Theorems

First the helper lemmas about rounding, payload amounts and the
`SellerQuote` upsert; then one theorem per claim, with witnesses and
counterexamples.
-/

theorem roundHalfUpCents_cents (k : ℤ) : roundHalfUpCents ((k : ℚ) / 100) = k := by
  have h100 : ((k : ℚ) / 100) * 100 = (k : ℚ) := by
    field_simp
  have hhalf : ⌊(1 : ℚ)/2⌋ = 0 := by
    rw [Int.floor_eq_zero_iff]
    constructor <;> norm_num
  unfold roundHalfUpCents
  rcases le_or_lt 0 ((k : ℚ) / 100) with h | h
  · rw [if_pos h, h100, Int.floor_int_add, hhalf, add_zero]
  · rw [if_neg (not_le.mpr h)]
    have hneg : -((k : ℚ) / 100) * 100 = ((-k : ℤ) : ℚ) := by
      push_cast
      field_simp
    rw [hneg, Int.floor_int_add, hhalf, add_zero, neg_neg]

theorem money_of_isCents {x : ℚ} (h : isCents x) : money x = x := by
  obtain ⟨k, hk⟩ := h
  rw [hk]
  unfold money
  rw [roundHalfUpCents_cents]

theorem isCents_money (x : ℚ) : isCents (money x) := ⟨roundHalfUpCents x, rfl⟩

theorem isCents_sum {l : List ℚ} (h : ∀ x ∈ l, isCents x) : isCents l.sum := by
  induction l with
  | nil => exact ⟨0, by norm_num⟩
  | cons a t ih =>
    obtain ⟨k, hk⟩ := h a (List.mem_cons_self a t)
    obtain ⟨m, hm⟩ := ih (fun x hx => h x (List.mem_cons_of_mem a hx))
    refine ⟨k + m, ?_⟩
    rw [List.sum_cons, hk, hm]
    push_cast
    ring

theorem money_eq {x : ℚ} {n : ℤ} (hx : 0 ≤ x) (hfl : ⌊x * 100 + 1/2⌋ = n) :
    money x = (n : ℚ) / 100 := by
  unfold money roundHalfUpCents
  rw [if_pos hx, hfl]

theorem pyRound2_eq {x : ℚ} {n : ℤ} (hfl : ⌊x * 100⌋ = n) (hlt : x * 100 - n < 1/2) :
    pyRound2 x = (n : ℚ) / 100 := by
  unfold pyRound2 roundHalfEvenCents
  rw [hfl, if_pos hlt]

theorem itemsPayload_amount_isCents {rows : List FormRow} {li : LineItem}
    (h : li ∈ itemsPayload rows) : isCents li.amount := by
  unfold itemsPayload at h
  rw [List.mem_filterMap] at h
  obtain ⟨r, _, hr⟩ := h
  unfold rowToPayload at hr
  split at hr
  · exact absurd hr (by simp)
  · cases hr
    exact isCents_money _

theorem payload_sum_isCents (rows : List FormRow) :
    isCents ((itemsPayload rows).map LineItem.amount).sum := by
  refine isCents_sum ?_
  intro x hx
  rw [List.mem_map] at hx
  obtain ⟨li, hli, rfl⟩ := hx
  exact itemsPayload_amount_isCents hli

theorem saved_sum_isCents (rows : List FormRow) :
    isCents ((rows.map savedItem).map LineItem.amount).sum := by
  refine isCents_sum ?_
  intro x hx
  rw [List.mem_map] at hx
  obtain ⟨li, hli, rfl⟩ := hx
  rw [List.mem_map] at hli
  obtain ⟨r, _, rfl⟩ := hli
  exact isCents_money _

theorem money_100 : money (100 : ℚ) = 100 := by
  have h := @money_eq (100 : ℚ) 10000 (by norm_num) (by norm_num)
  norm_num at h
  exact h

theorem money_18 : money (18 : ℚ) = 18 := by
  have h := @money_eq (18 : ℚ) 1800 (by norm_num) (by norm_num)
  norm_num at h
  exact h

theorem money_118 : money (118 : ℚ) = 118 := by
  have h := @money_eq (118 : ℚ) 11800 (by norm_num) (by norm_num)
  norm_num at h
  exact h

/-- Concrete run shared by the evaluations below: the multi-create view on
the single valid row `("Widget", "", qty 2, rate 50)` persists one line item
of amount 100 and stores subtotal 100, tax 18, total 118 (Scenario A of the
spec). -/
theorem quotation_multi_create_widget (flag : Bool) :
    quotation_multi_create flag [⟨"Widget", "", some 2, some 50⟩] =
      some ⟨[⟨"Widget", "", 2, 50, 100⟩], 100, 18, 118⟩ := by
  have hrow : rowToPayload ⟨"Widget", "", some 2, some 50⟩ =
      some ⟨"Widget", "", 2, 50, 100⟩ := by
    unfold rowToPayload
    rw [if_neg (fun h => absurd h.1 (by decide))]
    have hs : strip "Widget" = "Widget" := by decide
    have hs2 : strip "" = "" := by decide
    rw [hs, hs2]
    have hm : money ((some (2 : ℚ)).getD 0 * (some (50 : ℚ)).getD 0) = 100 := by
      have h1 : (some (2 : ℚ)).getD 0 * (some (50 : ℚ)).getD 0 = 100 := by
        norm_num
      rw [h1, money_100]
    rw [hm]
    rfl
  have hpay : itemsPayload [⟨"Widget", "", some 2, some 50⟩] =
      [⟨"Widget", "", 2, 50, 100⟩] := by
    unfold itemsPayload
    rw [List.filterMap_cons, hrow]
    rfl
  have hsum : (([⟨"Widget", "", 2, 50, 100⟩] : List LineItem).map
      LineItem.amount).sum = 100 := by
    simp
  have harg : (100 : ℚ) * TAX_RATE = 18 := by norm_num [TAX_RATE]
  have harg2 : (100 : ℚ) + 18 = 118 := by norm_num
  unfold quotation_multi_create
  rw [hpay, if_neg (by simp), hsum, money_100, harg, money_18, harg2, money_118]

/-- Concrete run shared by the evaluations below: the single-form save on
the same row persists one line item of amount 100 with subtotal 100, tax 18,
total 118. -/
theorem handle_quotation_form_widget :
    handle_quotation_form [⟨"Widget", "", some 2, some 50⟩] =
      .ok ⟨[⟨"Widget", "", 2, 50, 100⟩], 100, 18, 118⟩ := by
  have hsaved : savedItem ⟨"Widget", "", some 2, some 50⟩ =
      ⟨"Widget", "", 2, 50, 100⟩ := by
    unfold savedItem
    have h1 : (some (2 : ℚ)).getD 0 * (some (50 : ℚ)).getD 0 = 100 := by
      norm_num
    rw [h1, money_100]
    rfl
  have hsum : (([⟨"Widget", "", 2, 50, 100⟩] : List LineItem).map
      LineItem.amount).sum = 100 := by
    simp
  have harg : (100 : ℚ) * TAX_RATE = 18 := by norm_num [TAX_RATE]
  have harg2 : (100 : ℚ) + 18 = 118 := by norm_num
  unfold handle_quotation_form
  rw [List.map_cons, List.map_nil, hsaved, if_neg (by simp), hsum, money_100,
    harg, money_18, harg2, money_118]

/-- C2: for every quotation persisted with at least one surviving row by the
multi-create view, for every quotation successfully saved by the single-form
view (create and edit run the same recomputation), and for every quotation
persisted by the desktop path, the stored subtotal equals exactly the sum of
the amount fields of the line items persisted for that quotation. -/
theorem subtotal_eq_sum_persisted (flag : Bool) (rows finalRows : List FormRow)
    (q q' : QuotationRec) (buyers : List BuyerRec) (nm ph em ad : String)
    (drows : List OrmRow) (h : quotation_multi_create flag rows = some q)
    (h' : handle_quotation_form finalRows = .ok q') :
    q.subtotal = (q.items.map LineItem.amount).sum ∧
      q'.subtotal = (q'.items.map LineItem.amount).sum ∧
      (create_quotation_and_items buyers nm ph em ad drows).1.subtotal =
        ((create_quotation_and_items buyers nm ph em ad drows).1.items.map
          OrmItem.amount).sum := by
  refine ⟨?_, ?_, rfl⟩
  · unfold quotation_multi_create at h
    split at h
    · exact absurd h (by simp)
    · injection h with h2
      subst h2
      show money ((itemsPayload rows).map LineItem.amount).sum =
        ((itemsPayload rows).map LineItem.amount).sum
      exact money_of_isCents (payload_sum_isCents rows)
  · unfold handle_quotation_form at h'
    split at h'
    · exact absurd h' (by simp)
    · injection h' with h2
      subst h2
      show money ((finalRows.map savedItem).map LineItem.amount).sum =
        ((finalRows.map savedItem).map LineItem.amount).sum
      exact money_of_isCents (saved_sum_isCents finalRows)

/-- Witness for `subtotal_eq_sum_persisted`, at the Scenario A input
`("Widget", "", qty 2, rate 50)` on all three paths. -/
theorem subtotal_eq_sum_persisted_witness :
    (⟨[⟨"Widget", "", 2, 50, 100⟩], 100, 18, 118⟩ : QuotationRec).subtotal =
        ((⟨[⟨"Widget", "", 2, 50, 100⟩], 100, 18, 118⟩ : QuotationRec).items.map
          LineItem.amount).sum ∧
      (⟨[⟨"Widget", "", 2, 50, 100⟩], 100, 18, 118⟩ : QuotationRec).subtotal =
        ((⟨[⟨"Widget", "", 2, 50, 100⟩], 100, 18, 118⟩ : QuotationRec).items.map
          LineItem.amount).sum ∧
      (create_quotation_and_items [] "B" "" "" ""
          [⟨"Widget", "", 2, 50⟩]).1.subtotal =
        ((create_quotation_and_items [] "B" "" "" ""
          [⟨"Widget", "", 2, 50⟩]).1.items.map OrmItem.amount).sum :=
  subtotal_eq_sum_persisted true [⟨"Widget", "", some 2, some 50⟩]
    [⟨"Widget", "", some 2, some 50⟩] _ _ [] "B" "" "" ""
    [⟨"Widget", "", 2, 50⟩] (quotation_multi_create_widget true)
    handle_quotation_form_widget

/-- C3 counterexample: the claim fails in two ways.  First, the stored tax
is not 0 when the includeTax flag is false — the multi-create view never
reads the `include_gst` field, so with the flag false and a single row of
amount 100 the stored tax is 18.  Second, on the cited desktop path
(orm_utils.py line 66) the tax is not `round_half_up(subtotal * 0.18)`: with
the single row qty 1, rate 0.25 the stored subtotal is 0.25 and the stored
tax is `round(0.25 * float(0.18), 2) = 0.04` — the float product
`324259173170675700 / 2^56` lies strictly below the half-cent tie — while
`round_half_up(0.25 * 0.18) = round_half_up(0.045) = 0.05`. -/
theorem tax_flag_and_rounding_cex :
    (quotation_multi_create false [⟨"Widget", "", some 2, some 50⟩]).map
        QuotationRec.tax = some 18 ∧ (18 : ℚ) ≠ 0 ∧
      (create_quotation_and_items [] "B" "" "" ""
        [⟨"A", "", 1, 1/4⟩]).1.subtotal = 1/4 ∧
      (create_quotation_and_items [] "B" "" "" ""
        [⟨"A", "", 1, 1/4⟩]).1.tax = 4/100 ∧
      money ((1/4 : ℚ) * TAX_RATE) = 5/100 ∧ (4/100 : ℚ) ≠ 5/100 := by
  have hamt : pyRound2 ((1 : ℚ) * (1/4)) = 1/4 :=
    (@pyRound2_eq ((1 : ℚ) * (1/4)) 25 (by norm_num) (by norm_num)).trans
      (by norm_num)
  have hitems : (([⟨"A", "", 1, (1/4 : ℚ)⟩].map ormMkItem).map
      OrmItem.amount).sum = 1/4 := by
    rw [List.map_cons, List.map_nil, List.map_cons, List.map_nil]
    show ([pyRound2 ((1 : ℚ) * (1/4))] : List ℚ).sum = 1/4
    rw [hamt]
    simp
  refine ⟨?_, by norm_num, ?_, ?_, ?_, by norm_num⟩
  · rw [quotation_multi_create_widget false]
    rfl
  · show (([⟨"A", "", 1, (1/4 : ℚ)⟩].map ormMkItem).map OrmItem.amount).sum = 1/4
    exact hitems
  · show pyRound2 ((([⟨"A", "", 1, (1/4 : ℚ)⟩].map ormMkItem).map
      OrmItem.amount).sum * float018) = 4/100
    rw [hitems]
    exact (@pyRound2_eq ((1/4 : ℚ) * float018) 4
      (by norm_num [float018]) (by norm_num [float018])).trans (by norm_num)
  · exact (@money_eq ((1/4 : ℚ) * TAX_RATE) 5 (by norm_num [TAX_RATE])
      (by norm_num [TAX_RATE])).trans (by norm_num)

/-- C3 as amended: the includeTax flag is never consulted anywhere (creation
is the same function of the rows for both flag values).  On the web views —
multi-create and the single-form save — the stored tax equals
`round_half_up(subtotal * 0.18)` and the stored total equals
`round_half_up(subtotal + tax)`.  The desktop path has no tax flag and
stores `tax = round(subtotal * float(0.18), 2)` and
`total = round(subtotal + tax, 2)` under Python float rounding, which
deviates from round_half_up on half-cent boundaries. -/
theorem tax_always_applied (flag : Bool) (rows finalRows : List FormRow)
    (q q' : QuotationRec) (buyers : List BuyerRec) (nm ph em ad : String)
    (drows : List OrmRow) (h : quotation_multi_create flag rows = some q)
    (h' : handle_quotation_form finalRows = .ok q') :
    quotation_multi_create flag rows = quotation_multi_create (!flag) rows ∧
      q.tax = money (q.subtotal * TAX_RATE) ∧
      q.total = money (q.subtotal + q.tax) ∧
      q'.tax = money (q'.subtotal * TAX_RATE) ∧
      q'.total = money (q'.subtotal + q'.tax) ∧
      (create_quotation_and_items buyers nm ph em ad drows).1.tax =
        pyRound2 ((create_quotation_and_items buyers nm ph em ad
          drows).1.subtotal * float018) ∧
      (create_quotation_and_items buyers nm ph em ad drows).1.total =
        pyRound2 ((create_quotation_and_items buyers nm ph em ad
          drows).1.subtotal +
          (create_quotation_and_items buyers nm ph em ad drows).1.tax) := by
  unfold quotation_multi_create at h
  split at h
  · exact absurd h (by simp)
  · injection h with h2
    subst h2
    unfold handle_quotation_form at h'
    split at h'
    · exact absurd h' (by simp)
    · injection h' with h3
      subst h3
      refine ⟨rfl, ?_, rfl, ?_, rfl, rfl, rfl⟩
      · show money (((itemsPayload rows).map LineItem.amount).sum * TAX_RATE) =
          money (money ((itemsPayload rows).map LineItem.amount).sum * TAX_RATE)
        rw [money_of_isCents (payload_sum_isCents rows)]
      · show money (((finalRows.map savedItem).map LineItem.amount).sum *
            TAX_RATE) =
          money (money ((finalRows.map savedItem).map LineItem.amount).sum *
            TAX_RATE)
        rw [money_of_isCents (saved_sum_isCents finalRows)]

/-- Witness for `tax_always_applied` at the Scenario A input on the web
paths and the qty 1, rate 0.25 row on the desktop path. -/
theorem tax_always_applied_witness :
    quotation_multi_create false [⟨"Widget", "", some 2, some 50⟩] =
        quotation_multi_create true [⟨"Widget", "", some 2, some 50⟩] ∧
      (⟨[⟨"Widget", "", 2, 50, 100⟩], 100, 18, 118⟩ : QuotationRec).tax =
        money ((⟨[⟨"Widget", "", 2, 50, 100⟩], 100, 18, 118⟩ :
          QuotationRec).subtotal * TAX_RATE) ∧
      (⟨[⟨"Widget", "", 2, 50, 100⟩], 100, 18, 118⟩ : QuotationRec).total =
        money ((⟨[⟨"Widget", "", 2, 50, 100⟩], 100, 18, 118⟩ :
            QuotationRec).subtotal +
          (⟨[⟨"Widget", "", 2, 50, 100⟩], 100, 18, 118⟩ : QuotationRec).tax) ∧
      (⟨[⟨"Widget", "", 2, 50, 100⟩], 100, 18, 118⟩ : QuotationRec).tax =
        money ((⟨[⟨"Widget", "", 2, 50, 100⟩], 100, 18, 118⟩ :
          QuotationRec).subtotal * TAX_RATE) ∧
      (⟨[⟨"Widget", "", 2, 50, 100⟩], 100, 18, 118⟩ : QuotationRec).total =
        money ((⟨[⟨"Widget", "", 2, 50, 100⟩], 100, 18, 118⟩ :
            QuotationRec).subtotal +
          (⟨[⟨"Widget", "", 2, 50, 100⟩], 100, 18, 118⟩ : QuotationRec).tax) ∧
      (create_quotation_and_items [] "B" "" "" "" [⟨"A", "", 1, 1/4⟩]).1.tax =
        pyRound2 ((create_quotation_and_items [] "B" "" "" ""
          [⟨"A", "", 1, 1/4⟩]).1.subtotal * float018) ∧
      (create_quotation_and_items [] "B" "" "" "" [⟨"A", "", 1, 1/4⟩]).1.total =
        pyRound2 ((create_quotation_and_items [] "B" "" "" ""
            [⟨"A", "", 1, 1/4⟩]).1.subtotal +
          (create_quotation_and_items [] "B" "" "" ""
            [⟨"A", "", 1, 1/4⟩]).1.tax) :=
  tax_always_applied false [⟨"Widget", "", some 2, some 50⟩]
    [⟨"Widget", "", some 2, some 50⟩] _ _ [] "B" "" "" "" [⟨"A", "", 1, 1/4⟩]
    (quotation_multi_create_widget false) handle_quotation_form_widget

/-- C1: the claim states that every persisted line item's amount equals
`round_half_up(quantity * rate)`.  The desktop path
(orm_utils.py line 61) instead computes `round(qty * rate, 2)` on binary64
floats: for the valid input row `("A", "", qty 1, rate 2.675)` — where the
sheet's `float("2.675")` is the binary64 value `float2_675`, strictly below
the half-cent tie — the stored amount is `2.67`, while
`round_half_up(1 * 2.675)` is `2.68`.  This evaluation exhibits the
divergence. -/
theorem amount_rounding_desktop_bug :
    ((create_quotation_and_items [] "B" "" "" ""
        [⟨"A", "", 1, float2_675⟩]).1.items.map OrmItem.amount) = [267/100] ∧
      money (1 * (2675/1000 : ℚ)) = 268/100 ∧ (267/100 : ℚ) ≠ 268/100 := by
  refine ⟨?_, ?_, by norm_num⟩
  · show [pyRound2 ((1 : ℚ) * float2_675)] = [267/100]
    have h1 : ⌊(1 : ℚ) * float2_675 * 100⌋ = 267 := by
      unfold float2_675
      norm_num
    have h2 : (1 : ℚ) * float2_675 * 100 - ((267 : ℤ) : ℚ) < 1/2 := by
      unfold float2_675
      norm_num
    rw [pyRound2_eq h1 h2]
    norm_num
  · have hx : (0 : ℚ) ≤ 1 * (2675/1000) := by norm_num
    have hfl : ⌊(1 : ℚ) * (2675/1000) * 100 + 1/2⌋ = 268 := by norm_num
    rw [money_eq hx hfl]
    norm_num

/-- C4: the claim states that a row whose item name and description are both
empty after trimming is rejected.  The desktop sheet validation
(scrap/ui.py lines 158-181) only skips a pair when all four cells are empty:
the pair `(["", "2", "5", ""], ["", "", "", ""])` — no name, no description,
qty 2, rate 5 — survives, is persisted by `create_quotation_and_items` as a
line item with an empty description, and contributes 10.00 to the stored
subtotal. -/
theorem empty_name_desc_row_persisted_bug :
    get_items_from_sheet simpleParse [["", "2", "5", ""], ["", "", "", ""]] =
        [⟨"", "", 2, 5⟩] ∧
      (create_quotation_and_items [] "B" "" "" ""
        (get_items_from_sheet simpleParse
          [["", "2", "5", ""], ["", "", "", ""]])).1.items = [⟨"", 2, 5, 10⟩] ∧
      (create_quotation_and_items [] "B" "" "" ""
        (get_items_from_sheet simpleParse
          [["", "2", "5", ""], ["", "", "", ""]])).1.subtotal = 10 := by
  have hpr : pyRound2 ((2 : ℚ) * 5) = 10 := by
    have h1 : ⌊(2 : ℚ) * 5 * 100⌋ = 1000 := by norm_num
    have h2 : (2 : ℚ) * 5 * 100 - ((1000 : ℤ) : ℚ) < 1/2 := by norm_num
    rw [pyRound2_eq h1 h2]
    norm_num
  have hitem : ormMkItem ⟨"", "", 2, 5⟩ = ⟨"", 2, 5, 10⟩ := by
    unfold ormMkItem
    have hfd : fullDescription (strip "") (strip "") = "" := by decide
    rw [hfd, hpr]
  have hsheet : get_items_from_sheet simpleParse
      [["", "2", "5", ""], ["", "", "", ""]] = [⟨"", "", 2, 5⟩] := by
    have hrow : sheetRowToItem simpleParse ["", "2", "5", ""] ["", "", "", ""] =
        some ⟨"", "", 2, 5⟩ := by
      unfold sheetRowToItem
      rw [if_neg (fun h => absurd h.2.2.1 (by decide))]
      have hq : (if strip (cellStr ["", "2", "5", ""] 1) = "" then some 0
          else simpleParse (strip (cellStr ["", "2", "5", ""] 1))) = some (2 : ℚ) := by
        rw [if_neg (by decide)]
        show simpleParse "2" = some 2
        unfold simpleParse
        rw [if_pos (by decide)]
        have hn : "2".data.foldl (fun n c => 10 * n + (c.toNat - 48)) 0 = 2 := by decide
        rw [hn]
        norm_num
      have hr : (if strip (cellStr ["", "2", "5", ""] 2) = "" then some 0
          else simpleParse (strip (cellStr ["", "2", "5", ""] 2))) = some (5 : ℚ) := by
        rw [if_neg (by decide)]
        show simpleParse "5" = some 5
        unfold simpleParse
        rw [if_pos (by decide)]
        have hn : "5".data.foldl (fun n c => 10 * n + (c.toNat - 48)) 0 = 5 := by decide
        rw [hn]
        norm_num
      rw [hq, hr]
      show (if (2 : ℚ) ≤ 0 ∨ (5 : ℚ) < 0 then none
        else some (⟨strip (cellStr ["", "2", "5", ""] 0),
          strip (cellStr ["", "", "", ""] 0), 2, 5⟩ : OrmRow)) =
        some (⟨"", "", 2, 5⟩ : OrmRow)
      rw [if_neg (by norm_num)]
      have h0 : strip (cellStr ["", "2", "5", ""] 0) = "" := by decide
      have h0b : strip (cellStr ["", "", "", ""] 0) = "" := by decide
      rw [h0, h0b]
    unfold get_items_from_sheet
    rw [if_pos (by decide)]
    unfold sheetRows
    rw [hrow]
    rfl
  refine ⟨hsheet, ?_, ?_⟩
  · rw [hsheet]
    show [ormMkItem ⟨"", "", 2, 5⟩] = [⟨"", 2, 5, 10⟩]
    rw [hitem]
  · rw [hsheet]
    show (([⟨"", "", 2, 5⟩].map ormMkItem).map OrmItem.amount).sum = 10
    rw [List.map_cons, List.map_nil, hitem]
    simp

theorem upsert_findPair (l : List SellerQuoteRec) (qid sid : ℕ) (t p : String) :
    findPair (upsertSellerQuote l qid sid t p) qid sid = some ⟨qid, sid, t, p⟩ := by
  induction l with
  | nil =>
    simp [upsertSellerQuote, findPair, List.find?]
  | cons r rest ih =>
    unfold upsertSellerQuote
    by_cases hr : (r.quotation == qid && r.seller == sid) = true
    · rw [if_pos hr]
      simp [findPair, List.find?]
    · rw [if_neg hr]
      unfold findPair at ih ⊢
      rw [List.find?_cons_of_neg _ (by simpa using hr)]
      exact ih

theorem upsert_pairCount (l : List SellerQuoteRec) (qid sid : ℕ) (t p : String)
    (h : pairCount l qid sid ≤ 1) :
    pairCount (upsertSellerQuote l qid sid t p) qid sid = 1 := by
  induction l with
  | nil =>
    simp [upsertSellerQuote, pairCount]
  | cons r rest ih =>
    unfold upsertSellerQuote
    by_cases hr : (r.quotation == qid && r.seller == sid) = true
    · rw [if_pos hr]
      unfold pairCount at h ⊢
      rw [List.filter_cons, if_pos hr] at h
      rw [List.filter_cons, if_pos (by simp)]
      rw [List.length_cons] at h ⊢
      omega
    · rw [if_neg hr]
      unfold pairCount at h ⊢
      rw [List.filter_cons, if_neg hr] at h
      rw [List.filter_cons, if_neg hr]
      exact ih h

theorem generatePdfsLoop_single (companies : List (ℕ × String))
    (dateIso : String) (qid : ℕ) (qcode tmpl : String) (sid : ℕ)
    (st : FanState) (c : ℕ × String)
    (hc : companies.find? (fun x => x.1 == sid) = some c) :
    generatePdfsLoop companies dateIso qid qcode tmpl [sid] st =
      (.ok [pdfPathFor dateIso qcode c.2],
        fanStep st qid sid tmpl (pdfPathFor dateIso qcode c.2)) := by
  simp [generatePdfsLoop, hc]

/-- C6: re-running the fan-out for the same quotation and the same seller,
with any (resolvable) style, leaves exactly one `SellerQuote` row for the
pair, carrying the style and artifact path of the latest run — provided the
`SellerQuote` table respected the `(quotation, seller)` uniqueness constraint
beforehand. -/
theorem sellerquote_upsert_idempotent (styles : List String)
    (companies : List (ℕ × String)) (dateIso : String) (qid : ℕ)
    (qcode t1 t2 : String) (sid : ℕ) (name : String) (st : FanState)
    (hs1 : styles.contains t1 = true) (hs2 : styles.contains t2 = true)
    (hc : companies.find? (fun x => x.1 == sid) = some (sid, name))
    (hinv : pairCount st.sellerQuotes qid sid ≤ 1) :
    pairCount (generate_pdfs_for_sellers styles companies dateIso qid qcode t2
        [sid] (generate_pdfs_for_sellers styles companies dateIso qid qcode t1
          [sid] st).2).2.sellerQuotes qid sid = 1 ∧
      findPair (generate_pdfs_for_sellers styles companies dateIso qid qcode t2
        [sid] (generate_pdfs_for_sellers styles companies dateIso qid qcode t1
          [sid] st).2).2.sellerQuotes qid sid =
        some ⟨qid, sid, t2, pdfPathFor dateIso qcode name⟩ := by
  unfold generate_pdfs_for_sellers
  rw [if_pos hs1, if_pos hs2,
    generatePdfsLoop_single companies dateIso qid qcode t1 sid st _ hc,
    generatePdfsLoop_single companies dateIso qid qcode t2 sid _ _ hc]
  constructor
  · exact upsert_pairCount _ qid sid t2 _
      (le_of_eq (upsert_pairCount _ qid sid t1 _ hinv))
  · exact upsert_findPair _ qid sid t2 _

/-- Witness for `sellerquote_upsert_idempotent`: quotation 7, seller company
1 ("Allied Traders"), first run with style `main`, second with `boxed`,
starting from an empty table. -/
theorem sellerquote_upsert_idempotent_witness :
    pairCount (generate_pdfs_for_sellers ["main", "boxed"]
        [(1, "Allied Traders")] "2026-10-12" 7 "Q1" "boxed" [1]
        (generate_pdfs_for_sellers ["main", "boxed"] [(1, "Allied Traders")]
          "2026-10-12" 7 "Q1" "main" [1] ⟨[], []⟩).2).2.sellerQuotes 7 1 = 1 ∧
      findPair (generate_pdfs_for_sellers ["main", "boxed"]
        [(1, "Allied Traders")] "2026-10-12" 7 "Q1" "boxed" [1]
        (generate_pdfs_for_sellers ["main", "boxed"] [(1, "Allied Traders")]
          "2026-10-12" 7 "Q1" "main" [1] ⟨[], []⟩).2).2.sellerQuotes 7 1 =
        some ⟨7, 1, "boxed", pdfPathFor "2026-10-12" "Q1" "Allied Traders"⟩ :=
  sellerquote_upsert_idempotent ["main", "boxed"] [(1, "Allied Traders")]
    "2026-10-12" 7 "Q1" "main" "boxed" 1 "Allied Traders" ⟨[], []⟩
    (by decide) (by decide) (by decide) (by decide)

/-- C7 counterexample: the claim states that when a seller id in the list
does not resolve, no `SellerQuote` row and no artifact exists for any seller
in the list, including earlier ones.  Running the fan-out for ids `[1, 2]`
where only company 1 exists raises on id 2, but the `SellerQuote` row and
the PDF artifact written for seller 1 persist (there is no enclosing
transaction). -/
theorem fanout_partial_effects_cex :
    (generate_pdfs_for_sellers ["main"] [(1, "MainCo Pvt Ltd")] "2026-10-12"
        1 "Q1" "main" [1, 2] ⟨[], []⟩).1 = .error (.companyNotFound 2) ∧
      (generate_pdfs_for_sellers ["main"] [(1, "MainCo Pvt Ltd")] "2026-10-12"
        1 "Q1" "main" [1, 2] ⟨[], []⟩).2 =
        ⟨[⟨1, 1, "main", pdfPathFor "2026-10-12" "Q1" "MainCo Pvt Ltd"⟩],
          [pdfPathFor "2026-10-12" "Q1" "MainCo Pvt Ltd"]⟩ := by
  constructor <;> rfl

theorem generatePdfsLoop_cons_snd (companies : List (ℕ × String))
    (dateIso : String) (qid : ℕ) (qcode tmpl : String) (g : ℕ) (gs : List ℕ)
    (st : FanState) (c : ℕ × String)
    (hc : companies.find? (fun x => x.1 == g) = some c) :
    (generatePdfsLoop companies dateIso qid qcode tmpl (g :: gs) st).2 =
      (generatePdfsLoop companies dateIso qid qcode tmpl gs
        (fanStep st qid g tmpl (pdfPathFor dateIso qcode c.2))).2 := by
  rcases hres : generatePdfsLoop companies dateIso qid qcode tmpl gs
    (fanStep st qid g tmpl (pdfPathFor dateIso qcode c.2)) with ⟨r, st2⟩
  simp only [generatePdfsLoop, hc, hres]
  cases r <;> rfl

theorem generatePdfsLoop_cons_fst_error (companies : List (ℕ × String))
    (dateIso : String) (qid : ℕ) (qcode tmpl : String) (g : ℕ) (gs : List ℕ)
    (st : FanState) (c : ℕ × String) (e : FanError)
    (hc : companies.find? (fun x => x.1 == g) = some c)
    (herr : (generatePdfsLoop companies dateIso qid qcode tmpl gs
      (fanStep st qid g tmpl (pdfPathFor dateIso qcode c.2))).1 = .error e) :
    (generatePdfsLoop companies dateIso qid qcode tmpl (g :: gs) st).1 =
      .error e := by
  rcases hres : generatePdfsLoop companies dateIso qid qcode tmpl gs
    (fanStep st qid g tmpl (pdfPathFor dateIso qcode c.2)) with ⟨r, st2⟩
  rw [hres] at herr
  simp only [generatePdfsLoop, hc, hres]
  cases r with
  | ok v => exact absurd herr (by simp)
  | error e2 => simpa using herr

/-- C7 as amended: the fan-out fails fast at the first unresolvable seller
id, reporting that id, and performs nothing for it or for the ids after it —
but the `SellerQuote` rows and artifacts already produced for the sellers
preceding it in the list persist: the state after the failed batch equals
the state after processing just the good prefix. -/
theorem fanout_fail_fast_state (styles : List String)
    (companies : List (ℕ × String)) (dateIso : String) (qid : ℕ)
    (qcode tmpl : String) (good : List ℕ) (bad : ℕ) (rest : List ℕ)
    (st : FanState) (hstyle : styles.contains tmpl = true)
    (hgood : ∀ g ∈ good, (companies.find? (fun c => c.1 == g)).isSome = true)
    (hbad : companies.find? (fun c => c.1 == bad) = none) :
    (generate_pdfs_for_sellers styles companies dateIso qid qcode tmpl
        (good ++ bad :: rest) st).1 = .error (.companyNotFound bad) ∧
      (generate_pdfs_for_sellers styles companies dateIso qid qcode tmpl
        (good ++ bad :: rest) st).2 =
        (generatePdfsLoop companies dateIso qid qcode tmpl good st).2 := by
  unfold generate_pdfs_for_sellers
  rw [if_pos hstyle]
  induction good generalizing st with
  | nil =>
    rw [List.nil_append]
    constructor
    · simp [generatePdfsLoop, hbad]
    · simp [generatePdfsLoop, hbad]
  | cons g gs ih =>
    obtain ⟨c, hc⟩ := Option.isSome_iff_exists.mp
      (hgood g (List.mem_cons_self g gs))
    rw [List.cons_append]
    obtain ⟨h1, h2⟩ := ih (fanStep st qid g tmpl (pdfPathFor dateIso qcode c.2))
      (fun x hx => hgood x (List.mem_cons_of_mem g hx))
    constructor
    · exact generatePdfsLoop_cons_fst_error companies dateIso qid qcode tmpl g
        (gs ++ bad :: rest) st c (.companyNotFound bad) hc h1
    · rw [generatePdfsLoop_cons_snd companies dateIso qid qcode tmpl g
          (gs ++ bad :: rest) st c hc,
        generatePdfsLoop_cons_snd companies dateIso qid qcode tmpl g gs st c hc]
      exact h2

/-- Witness for `fanout_fail_fast_state`: ids `[1, 2]` with only company 1
present — the batch errors on id 2 and the final state is that of the run
over the good prefix `[1]`. -/
theorem fanout_fail_fast_state_witness :
    (generate_pdfs_for_sellers ["main"] [(1, "MainCo Pvt Ltd")] "2026-10-12"
        1 "Q1" "main" [1, 2] ⟨[], []⟩).1 = .error (.companyNotFound 2) ∧
      (generate_pdfs_for_sellers ["main"] [(1, "MainCo Pvt Ltd")] "2026-10-12"
        1 "Q1" "main" [1, 2] ⟨[], []⟩).2 =
        (generatePdfsLoop [(1, "MainCo Pvt Ltd")] "2026-10-12" 1 "Q1" "main"
          [1] ⟨[], []⟩).2 :=
  fanout_fail_fast_state ["main"] [(1, "MainCo Pvt Ltd")] "2026-10-12" 1
    "Q1" "main" [1] 2 [] ⟨[], []⟩ (by decide) (by decide) (by decide)

/-- C8 counterexample: the claim states that a style code outside the
supported enumeration fails with an "unsupported style" error; but
`render_pdf` is total and renders the unknown code `"totally-unknown"`
exactly as it renders the supported `"classic"` style — a silent fallback
to the generic layout. -/
theorem unknown_style_silent_fallback_cex :
    render_pdf ⟨[⟨"Widget", "", 2, 50⟩], 100, 18, 118⟩ "totally-unknown" =
        render_pdf ⟨[⟨"Widget", "", 2, 50⟩], 100, 18, 118⟩ "classic" ∧
      (render_pdf ⟨[⟨"Widget", "", 2, 50⟩], 100, 18, 118⟩
        "totally-unknown").metaBanner = true := by
  constructor
  · unfold render_pdf
    rw [if_neg (by decide), if_neg (by decide)]
  · unfold render_pdf
    rw [if_neg (by decide)]

/-- C8 as amended: `render_pdf` distinguishes only the `"main"` style; every
other style code — the four other seeded codes as well as any unknown
string — renders the identical shared generic layout, with no
unsupported-style error (an unknown code is only caught earlier, by the
fan-out's `TemplateStyle` lookup against the reference data). -/
theorem non_main_styles_share_layout (ctx : RenderCtx) (s : String)
    (h : s ≠ "main") : render_pdf ctx s = render_pdf ctx "classic" := by
  unfold render_pdf
  rw [if_neg h, if_neg (by decide)]

/-- Witness for `non_main_styles_share_layout` at the unknown style
`"futuristic"` and an empty context. -/
theorem non_main_styles_share_layout_witness :
    render_pdf ⟨[], 0, 0, 0⟩ "futuristic" = render_pdf ⟨[], 0, 0, 0⟩ "classic" :=
  non_main_styles_share_layout ⟨[], 0, 0, 0⟩ "futuristic" (by decide)

/-- C9: the outbound link builder embeds the normalized digit-only number
(no `+`) together with the percent-encoded message when the raw phone parses
to a possible, valid number; for an empty string, a parse failure, or an
invalid number it falls back to the recipient-less link carrying only the
percent-encoded message. -/
theorem whatsapp_link_builder_ok {P : Type} (lib : PhoneLib P)
    (phone text : String) :
    (∀ n, phone ≠ "" → lib.parse phone = some n →
        (lib.isPossible n && lib.isValid n) = true →
        open_whatsapp_chat lib phone text =
            "https://wa.me/" ++ stripPlus (lib.e164 n) ++ "?text=" ++
              pctQuote text ∧
          '+' ∉ (stripPlus (lib.e164 n)).data) ∧
      ((phone = "" ∨ lib.parse phone = none ∨
          ∀ n, lib.parse phone = some n →
            (lib.isPossible n && lib.isValid n) = false) →
        open_whatsapp_chat lib phone text =
          "https://wa.me/?text=" ++ pctQuote text) := by
  constructor
  · intro n hne hp hv
    constructor
    · unfold open_whatsapp_chat format_e164
      rw [if_neg hne, hp]
      simp [hv]
    · intro hmem
      have : ('+' : Char) ∈ (lib.e164 n).data.filter (fun c => c ≠ '+') := hmem
      rw [List.mem_filter] at this
      exact absurd this.2 (by simp)
  · intro hcase
    unfold open_whatsapp_chat format_e164
    rcases hcase with h | h | h
    · rw [if_pos h]
    · by_cases hne : phone = ""
      · rw [if_pos hne]
      · rw [if_neg hne, h]
    · by_cases hne : phone = ""
      · rw [if_pos hne]
      · rw [if_neg hne]
        cases hp : lib.parse phone with
        | none => rfl
        | some n =>
          have hfalse := h n hp
          simp [hfalse]

/-- Witness for `whatsapp_link_builder_ok`: the Scenario E inputs
`"9876543210"` (valid for the demo library, E.164 `+919876543210`) and the
empty phone, with message `"Hello world"`. -/
theorem whatsapp_link_builder_ok_witness :
    open_whatsapp_chat demoLib "9876543210" "Hello world" =
        "https://wa.me/919876543210?text=Hello%20world" ∧
      open_whatsapp_chat demoLib "" "Hello world" =
        "https://wa.me/?text=Hello%20world" := by
  constructor
  · have h := (whatsapp_link_builder_ok demoLib "9876543210" "Hello world").1 ()
      (by decide) (by decide) (by decide)
    refine h.1.trans ?_
    decide
  · have h := (whatsapp_link_builder_ok demoLib "" "Hello world").2 (Or.inl rfl)
    refine h.trans ?_
    decide

/-- C10: when the buyer name's stripped form matches an existing buyer, the
desktop creation leaves the whole buyer table unchanged — in particular that
buyer's stored phone, email and address; the contact details supplied with
the quotation are applied only when a new buyer record is created. -/
theorem existing_buyer_contacts_unchanged (buyers : List BuyerRec)
    (nm ph em ad : String) (rows : List OrmRow) :
    ((buyers.find? (fun b => b.name == buyerKey nm)).isSome = true →
        (create_quotation_and_items buyers nm ph em ad rows).2 = buyers) ∧
      (buyers.find? (fun b => b.name == buyerKey nm) = none →
        (create_quotation_and_items buyers nm ph em ad rows).2 =
          buyers ++ [⟨buyerKey nm, ph, em, ad⟩]) := by
  constructor
  · intro h
    obtain ⟨b, hb⟩ := Option.isSome_iff_exists.mp h
    show (buyerGetOrCreate buyers (buyerKey nm) ph em ad).2 = buyers
    unfold buyerGetOrCreate
    rw [hb]
  · intro h
    show (buyerGetOrCreate buyers (buyerKey nm) ph em ad).2 =
      buyers ++ [⟨buyerKey nm, ph, em, ad⟩]
    unfold buyerGetOrCreate
    rw [h]

/-- Witness for `existing_buyer_contacts_unchanged`: the buyer table holds
"Acme Corp" with its original contact details; creating a quotation for
`" Acme Corp "` (stripping to the same name) with different contact details
leaves the table unchanged, and with an unmatched name appends a new buyer
carrying the supplied details. -/
theorem existing_buyer_contacts_unchanged_witness :
    (create_quotation_and_items [⟨"Acme Corp", "111", "old@x", "Old Street"⟩]
        " Acme Corp " "222" "new@x" "New Street" [⟨"A", "", 1, 2⟩]).2 =
        [⟨"Acme Corp", "111", "old@x", "Old Street"⟩] ∧
      (create_quotation_and_items [⟨"Acme Corp", "111", "old@x", "Old Street"⟩]
        "Other Buyer" "222" "new@x" "New Street" [⟨"A", "", 1, 2⟩]).2 =
        [⟨"Acme Corp", "111", "old@x", "Old Street"⟩,
          ⟨buyerKey "Other Buyer", "222", "new@x", "New Street"⟩] :=
  ⟨(existing_buyer_contacts_unchanged
      [⟨"Acme Corp", "111", "old@x", "Old Street"⟩] " Acme Corp " "222"
      "new@x" "New Street" [⟨"A", "", 1, 2⟩]).1 (by decide),
    (existing_buyer_contacts_unchanged
      [⟨"Acme Corp", "111", "old@x", "Old Street"⟩] "Other Buyer" "222"
      "new@x" "New Street" [⟨"A", "", 1, 2⟩]).2 (by decide)⟩

/-- C5: the claim states that a creation in which zero input rows survive
validation fails with a validation error and persists nothing.  The
multi-create view does exactly that (first two conjuncts: a submitted block
with no rows, or with one all-empty row, yields no quotation), and so does
the desktop guard (fourth conjunct: the create function is never invoked).
But the web single-form create path has no emptiness check: with zero
surviving items, `sum` over the empty persisted item set returns the int 0
and `_money(0)` raises `AttributeError` inside `transaction.atomic` — the
rollback persists nothing, but the failure is an uncaught exception, not the
claimed validation error (third conjunct). -/
theorem zero_items_create_crash_bug :
    quotation_multi_create true [] = none ∧
      quotation_multi_create true [⟨"", "", none, none⟩] = none ∧
      handle_quotation_form [] = .error .attributeError ∧
      on_generate [] "B" "" "" "" [] = none := by
  have hemp : rowToPayload ⟨"", "", none, none⟩ = none := by
    unfold rowToPayload
    rw [if_pos ⟨by decide, by decide, by simp⟩]
  have hpay : itemsPayload [⟨"", "", none, none⟩] = [] := by
    unfold itemsPayload
    rw [List.filterMap_cons, hemp]
    rfl
  refine ⟨?_, ?_, ?_, ?_⟩
  · simp [quotation_multi_create, itemsPayload]
  · unfold quotation_multi_create
    rw [if_pos hpay]
  · rfl
  · rfl

end QMS
